import Mathlib

/-!
Verification of the FN-Rares feed renderer.

Shallow embedding of the client-side script (the main script of the
repository: `formatDays`, `createCard`, `showError`, `loadData`).
JavaScript numbers appearing here are day counts, embedded as `Int`;
`Math.floor(x / n)` is `Int.fdiv` and the JavaScript remainder `x % n`
is `Int.tmod` (truncated, matching JavaScript semantics).  Values that
may be `null`/`undefined` are `Option`s; the JavaScript `||` defaulting
on strings tests for the empty string, since `""` is falsy.
-/

namespace FNRares

/-- Days-ago formatter, embedding `formatDays` from the main script:
`null`/`undefined` input is `none`; otherwise the three-branch
year/month/day rendering with floor division and truncated remainder. -/
def formatDays : Option Int → String
  | none => "Unknown"
  | some days =>
    if days ≥ 365 then
      toString (Int.fdiv days 365) ++ "y " ++ toString (Int.tmod days 365) ++ "d ago"
    else if days ≥ 30 then
      toString (Int.fdiv days 30) ++ "m " ++ toString (Int.tmod days 30) ++ "d ago"
    else
      toString days ++ " days ago"

/-- One shop item of the feed, per the data model: every field optional. -/
structure ShopItem where
  id : Option String
  name : Option String
  icon : Option String
  days_since : Option Int
deriving Repr, DecidableEq

/-- The JSON feed: an optional item list and an optional timestamp string. -/
structure ShopFeed where
  items : Option (List ShopItem)
  updated_utc : Option String
deriving Repr, DecidableEq

/-- JavaScript `a || b` on an optional string `a`: `null`/`undefined` and
the empty string are falsy and select the default. -/
def jsOrString (a : Option String) (b : String) : String :=
  match a with
  | none => b
  | some s => if s = "" then b else s

/-- Hexadecimal digit character (uppercase) for `n < 16`. -/
def hexDigit (n : Nat) : Char :=
  if n < 10 then Char.ofNat (48 + n) else Char.ofNat (55 + n)

/-- UTF-8 encoding of a Unicode code point, as a list of byte values. -/
def utf8Bytes (n : Nat) : List Nat :=
  if n < 0x80 then [n]
  else if n < 0x800 then [0xC0 + n / 64, 0x80 + n % 64]
  else if n < 0x10000 then
    [0xE0 + n / 4096, 0x80 + (n / 64) % 64, 0x80 + n % 64]
  else
    [0xF0 + n / 262144, 0x80 + (n / 4096) % 64, 0x80 + (n / 64) % 64, 0x80 + n % 64]

/-- Characters that `encodeURIComponent` leaves unescaped: letters, digits
and `- _ . ! ~ * ' ( )`. -/
def uriUnreserved (c : Char) : Bool :=
  let n := c.toNat
  (65 ≤ n && n ≤ 90) || (97 ≤ n && n ≤ 122) || (48 ≤ n && n ≤ 57) ||
  n = 45 || n = 95 || n = 46 || n = 33 || n = 126 || n = 42 || n = 39 ||
  n = 40 || n = 41

/-- Percent-escape of one byte: `%` followed by two uppercase hex digits. -/
def percentByte (b : Nat) : String :=
  String.mk [Char.ofNat 37, hexDigit (b / 16), hexDigit (b % 16)]

/-- The JavaScript `encodeURIComponent`: unreserved characters pass through,
every other character is percent-escaped per UTF-8 byte. -/
def encodeURIComponent (s : String) : String :=
  String.join (s.data.map fun c =>
    if uriUnreserved c then String.singleton c
    else String.join ((utf8Bytes c.toNat).map percentByte))

/-- Base of the external detail link, the `ITEM_LINK_BASE` constant. -/
def ITEM_LINK_BASE : String := "https://fnbr.co/cosmetics?id="

/-- The rendered card node produced by `createCard`: the anchor href, the
image source and alt text, the name label and the days label. -/
structure Card where
  href : String
  imgSrc : String
  imgAlt : String
  nameLabel : String
  daysLabel : String
deriving Repr, DecidableEq

/-- Card builder, embedding `createCard` from the main script: defaults via
`||`, link `ITEM_LINK_BASE + encodeURIComponent(id)`, and the innerHTML
template whose fields the `Card` structure records. -/
def createCard (item : ShopItem) : Card :=
  let id := jsOrString item.id ""
  let name := jsOrString item.name "Unknown"
  let icon := jsOrString item.icon ""
  let days := item.days_since
  let link := ITEM_LINK_BASE ++ encodeURIComponent id
  { href := link
    imgSrc := icon
    imgAlt := name
    nameLabel := name
    daysLabel := formatDays days }

/-- The mutable page state the script touches: the grid's children, the
status text element (`updatedText.textContent`), and the console log. -/
structure DomState where
  grid : List Card
  updatedText : String
  log : List String
deriving Repr, DecidableEq

/-- Error reporter, embedding `showError`: sets the status text to the
message and logs it via `console.error`. -/
def showError (message : String) (s : DomState) : DomState :=
  { s with updatedText := message, log := s.log ++ [message] }

/-- The `catch` handler of `loadData`: `showError("Error loading data")`
followed by `console.error(err)`. -/
def catchHandler (err : String) (s : DomState) : DomState :=
  let s1 := showError "Error loading data" s
  { s1 with log := s1.log ++ [err] }

/-- Outcome of the awaited `fetch` and body parse, as observed by
`loadData`: the fetch itself may reject (network failure), or deliver a
response with an `ok` flag whose `json()` body either parses to a
`ShopFeed` or throws. -/
inductive FetchOutcome where
  | networkError (err : String)
  | response (ok : Bool) (body : Except String ShopFeed)
deriving Repr

/-- Loader, embedding `loadData` from the main script.  `localeFormat`
stands for the environment's `new Date(ts).toLocaleString()`.  Control
flow follows the source: non-OK status reports "Failed to load data";
`data.items || []` defaults the list; an empty list reports the empty
message; otherwise the grid is cleared (`grid.innerHTML = ""`) and one
card per item is appended in order, then the status text gets the
formatted timestamp when `data.updated_utc` is truthy and is blanked
otherwise; any thrown error lands in the `catch` handler. -/
def loadData (localeFormat : String → String) (o : FetchOutcome)
    (s : DomState) : DomState :=
  match o with
  | .networkError err => catchHandler err s
  | .response ok body =>
    if !ok then
      showError "Failed to load data" s
    else
      match body with
      | .error err => catchHandler err s
      | .ok data =>
        let items := data.items.getD []
        if items.length = 0 then
          showError "No items in shop right now" s
        else
          let s1 := { s with grid := [] }
          let s2 := { s1 with
            grid := items.foldl (fun g item => g ++ [createCard item]) s1.grid }
          match data.updated_utc with
          | some ts =>
            if ts = "" then { s2 with updatedText := "" }
            else { s2 with updatedText := "Updated: " ++ localeFormat ts }
          | none => { s2 with updatedText := "" }

/-- Appending one card at a time to an accumulator, as the render loop of
`loadData` does, amounts to mapping `createCard` over the items. -/
theorem foldl_append_eq_map (l : List ShopItem) (acc : List Card) :
    l.foldl (fun g item => g ++ [createCard item]) acc = acc ++ l.map createCard := by
  induction l generalizing acc with
  | nil => simp
  | cons x xs ih => simp [List.foldl_cons, ih]

/-- C1: the day-count formatter maps an absent value to "Unknown"; an
integer `d ≥ 365` to "`⌊d/365⌋`y `d mod 365`d ago"; `30 ≤ d < 365` to
"`⌊d/30⌋`m `d mod 30`d ago"; any other integer to "`d` days ago"; in
particular 400 ↦ "1y 35d ago", 40 ↦ "1m 10d ago", 5 ↦ "5 days ago" and
an absent value ↦ "Unknown". -/
theorem formatDays_spec :
    formatDays none = "Unknown"
    ∧ (∀ d : Int, 365 ≤ d →
        formatDays (some d) = toString (d / 365) ++ "y " ++ toString (d % 365) ++ "d ago")
    ∧ (∀ d : Int, 30 ≤ d → d < 365 →
        formatDays (some d) = toString (d / 30) ++ "m " ++ toString (d % 30) ++ "d ago")
    ∧ (∀ d : Int, d < 30 → formatDays (some d) = toString d ++ " days ago")
    ∧ formatDays (some 400) = "1y 35d ago"
    ∧ formatDays (some 40) = "1m 10d ago"
    ∧ formatDays (some 5) = "5 days ago" := by
  refine ⟨rfl, ?_, ?_, ?_, by decide, by decide, by decide⟩
  · intro d hd
    have h0 : (0 : Int) ≤ d := le_trans (by norm_num) hd
    simp only [formatDays]
    rw [if_pos hd, Int.fdiv_eq_ediv d (by norm_num),
      Int.tmod_eq_emod h0 (by norm_num)]
  · intro d hd1 hd2
    have h0 : (0 : Int) ≤ d := le_trans (by norm_num) hd1
    simp only [formatDays]
    rw [if_neg (not_le.mpr hd2), if_pos hd1, Int.fdiv_eq_ediv d (by norm_num),
      Int.tmod_eq_emod h0 (by norm_num)]
  · intro d hd
    simp only [formatDays]
    rw [if_neg (not_le.mpr (lt_trans hd (by norm_num))), if_neg (not_le.mpr hd)]

/-- Witness for C1: the three quantified branches of `formatDays_spec`
evaluated at 400, 40 and 5. -/
theorem formatDays_spec_witness :
    formatDays (some 400)
      = toString ((400 : Int) / 365) ++ "y " ++ toString ((400 : Int) % 365) ++ "d ago"
    ∧ formatDays (some 40)
      = toString ((40 : Int) / 30) ++ "m " ++ toString ((40 : Int) % 30) ++ "d ago"
    ∧ formatDays (some 5) = toString (5 : Int) ++ " days ago" :=
  ⟨formatDays_spec.2.1 400 (by decide),
   formatDays_spec.2.2.1 40 (by decide) (by decide),
   formatDays_spec.2.2.2.1 5 (by decide)⟩

/-- C9: the day-count formatter is total on the integers: every integer
input falls into exactly one of the three rendering branches and yields a
string; there is no error branch and no bounds check. -/
theorem formatDays_total (d : Int) :
    (365 ≤ d ∧ formatDays (some d)
      = toString (Int.fdiv d 365) ++ "y " ++ toString (Int.tmod d 365) ++ "d ago")
    ∨ (30 ≤ d ∧ d < 365 ∧ formatDays (some d)
      = toString (Int.fdiv d 30) ++ "m " ++ toString (Int.tmod d 30) ++ "d ago")
    ∨ (d < 30 ∧ formatDays (some d) = toString d ++ " days ago") := by
  by_cases h1 : 365 ≤ d
  · exact Or.inl ⟨h1, by simp only [formatDays]; rw [if_pos h1]⟩
  · by_cases h2 : 30 ≤ d
    · refine Or.inr (Or.inl ⟨h2, not_le.mp h1, ?_⟩)
      simp only [formatDays]
      rw [if_neg h1, if_pos h2]
    · refine Or.inr (Or.inr ⟨not_le.mp h2, ?_⟩)
      simp only [formatDays]
      rw [if_neg h1, if_neg h2]

/-- C10: every negative integer falls through both threshold checks and is
rendered as "`d` days ago". -/
theorem formatDays_negative (d : Int) (h : d < 0) :
    formatDays (some d) = toString d ++ " days ago" := by
  simp only [formatDays]
  rw [if_neg (by omega), if_neg (by omega)]

/-- Witness for C10: the negative-input branch at −5 yields "-5 days ago". -/
theorem formatDays_negative_witness :
    formatDays (some (-5)) = toString (-5 : Int) ++ " days ago"
    ∧ formatDays (some (-5)) = "-5 days ago" :=
  ⟨formatDays_negative (-5) (by decide), by decide⟩

/-- C3 counterexample: an item whose name is present but empty gets the
name label "Unknown", not its name "" — the `||` default fires on every
falsy name, so "shows the item's name" fails at this input. -/
theorem createCard_empty_name_counterexample :
    (createCard { id := some "abc", name := some "",
                  icon := some "ic.png", days_since := some 5 }).nameLabel = "Unknown"
    ∧ ¬ (createCard { id := some "abc", name := some "",
                      icon := some "ic.png", days_since := some 5 }).nameLabel = "" := by
  constructor
  · decide
  · decide

/-- C3 (amended): the card's href is the link base followed by the
URL-encoding of the item's id (empty when missing), the name label shows
the item's name when present and non-empty, the days label is the
formatted day count; a missing or empty name defaults to "Unknown", a
missing id or icon defaults to the empty string (and a present icon is
shown as is). -/
theorem createCard_spec (item : ShopItem) :
    (∀ i, item.id = some i →
      (createCard item).href = ITEM_LINK_BASE ++ encodeURIComponent i)
    ∧ (item.id = none →
      (createCard item).href = ITEM_LINK_BASE ++ encodeURIComponent "")
    ∧ (∀ n, item.name = some n → n ≠ "" → (createCard item).nameLabel = n)
    ∧ ((item.name = none ∨ item.name = some "") →
      (createCard item).nameLabel = "Unknown")
    ∧ (∀ ic, item.icon = some ic → (createCard item).imgSrc = ic)
    ∧ (item.icon = none → (createCard item).imgSrc = "")
    ∧ (createCard item).daysLabel = formatDays item.days_since := by
  refine ⟨?_, ?_, ?_, ?_, ?_, ?_, rfl⟩
  · intro i hi
    by_cases h : i = ""
    · subst h; simp [createCard, jsOrString, hi]
    · simp [createCard, jsOrString, hi, h]
  · intro hi
    simp [createCard, jsOrString, hi]
  · intro n hn h
    simp [createCard, jsOrString, hn, h]
  · rintro (hn | hn) <;> simp [createCard, jsOrString, hn]
  · intro ic hic
    by_cases h : ic = ""
    · subst h; simp [createCard, jsOrString, hic]
    · simp [createCard, jsOrString, hic, h]
  · intro hic
    simp [createCard, jsOrString, hic]

/-- Witness for C3: a concrete card with a space in its id links to the
percent-escaped URL and shows its non-empty name. -/
theorem createCard_spec_witness :
    (createCard { id := some "Skull Trooper", name := some "Skull",
                  icon := some "s.png", days_since := some 400 }).href
      = ITEM_LINK_BASE ++ encodeURIComponent "Skull Trooper"
    ∧ (createCard { id := some "Skull Trooper", name := some "Skull",
                    icon := some "s.png", days_since := some 400 }).href
      = "https://fnbr.co/cosmetics?id=Skull%20Trooper"
    ∧ (createCard { id := some "Skull Trooper", name := some "Skull",
                    icon := some "s.png", days_since := some 400 }).nameLabel = "Skull" :=
  ⟨(createCard_spec _).1 "Skull Trooper" rfl, by decide,
   (createCard_spec _).2.2.1 "Skull" rfl (by decide)⟩

/-- Concrete shop item used by the witnesses below. -/
def itemA : ShopItem :=
  { id := some "a", name := some "A", icon := some "a.png", days_since := some 5 }

/-- Second concrete shop item used by the witnesses below. -/
def itemB : ShopItem :=
  { id := some "b", name := some "B", icon := some "b.png", days_since := none }

/-- Concrete stale card content used by the witnesses below. -/
def itemOld : ShopItem :=
  { id := some "old", name := some "Old", icon := none, days_since := none }

/-- Concrete page state holding one stale card. -/
def staleState : DomState :=
  { grid := [createCard itemOld], updatedText := "stale", log := [] }

/-- Concrete blank page state. -/
def blankState : DomState :=
  { grid := [], updatedText := "", log := [] }

/-- Concrete two-item feed with no timestamp. -/
def feedAB : ShopFeed :=
  { items := some [itemA, itemB], updated_utc := none }

/-- Concrete one-item feed with a timestamp. -/
def feedTs : ShopFeed :=
  { items := some [itemA], updated_utc := some "2024-01-02T03:04:05Z" }

/-- Concrete one-item feed without a timestamp. -/
def feedNoTs : ShopFeed :=
  { items := some [itemA], updated_utc := none }

/-- C2: on an OK response whose feed has a non-empty item list, the load
ends with the grid equal to the item list mapped through `createCard` —
exactly one card per item, in feed order, independent of whatever the grid
held before (the previous contents are cleared, the view fully replaced). -/
theorem loadData_success_renders (lf : String → String) (data : ShopFeed)
    (l : List ShopItem) (s : DomState)
    (hitems : data.items = some l) (hne : l ≠ []) :
    (loadData lf (.response true (.ok data)) s).grid = l.map createCard
    ∧ (loadData lf (.response true (.ok data)) s).grid.length = l.length := by
  have hlen : ¬ l.length = 0 := by
    simpa [List.length_eq_zero] using hne
  have hgrid : (loadData lf (.response true (.ok data)) s).grid = l.map createCard := by
    simp only [loadData, Bool.not_true, Bool.false_eq_true, if_false, hitems,
      Option.getD_some]
    rw [if_neg hlen]
    rcases hts : data.updated_utc with _ | ts
    · simp [foldl_append_eq_map]
    · by_cases h : ts = "" <;> simp [h, foldl_append_eq_map]
  exact ⟨hgrid, by rw [hgrid, List.length_map]⟩

/-- Witness for C2: a two-item feed rendered over a stale one-card grid
leaves exactly the two fresh cards, in order. -/
theorem loadData_success_renders_witness :
    (loadData (fun ts => ts) (.response true (.ok feedAB)) staleState).grid
      = [createCard itemA, createCard itemB] := by
  have h := loadData_success_renders (fun ts => ts) feedAB [itemA, itemB]
    staleState rfl (by decide)
  simpa using h.1

/-- C4: a response with a non-OK status makes the load report
"Failed to load data" in the status text and stop — the grid is left
exactly as it was, no cards are produced, whatever the body held. -/
theorem loadData_not_ok (lf : String → String) (body : Except String ShopFeed)
    (s : DomState) :
    (loadData lf (.response false body) s).updatedText = "Failed to load data"
    ∧ (loadData lf (.response false body) s).grid = s.grid := by
  simp [loadData, showError]

/-- C5: a feed whose item list is empty, or absent and hence defaulted to
empty, makes the load report "No items in shop right now" and stop — the
grid is left exactly as it was, no cards produced. -/
theorem loadData_empty_items (lf : String → String) (data : ShopFeed)
    (s : DomState) (h : data.items = none ∨ data.items = some []) :
    (loadData lf (.response true (.ok data)) s).updatedText
      = "No items in shop right now"
    ∧ (loadData lf (.response true (.ok data)) s).grid = s.grid := by
  rcases h with h | h <;> simp [loadData, h, showError]

/-- Witness for C5: a feed without an items field hits the empty branch. -/
theorem loadData_empty_items_witness :
    (loadData (fun ts => ts)
      (.response true (.ok { items := none, updated_utc := none }))
      blankState).updatedText = "No items in shop right now" :=
  (loadData_empty_items (fun ts => ts) { items := none, updated_utc := none }
    blankState (Or.inl rfl)).1

/-- C6: an error thrown during the fetch or during body parsing is caught:
the status text becomes "Error loading data", the original error is
logged, and the load returns normally with the grid untouched. -/
theorem loadData_catches_errors (lf : String → String) (err : String)
    (o : FetchOutcome) (s : DomState)
    (h : o = .networkError err ∨ o = .response true (.error err)) :
    (loadData lf o s).updatedText = "Error loading data"
    ∧ err ∈ (loadData lf o s).log
    ∧ (loadData lf o s).grid = s.grid := by
  rcases h with h | h <;> subst h <;>
    simp [loadData, catchHandler, showError]

/-- Witness for C6: a concrete network failure is reported and its message
logged. -/
theorem loadData_catches_errors_witness :
    (loadData (fun ts => ts) (.networkError "TypeError: failed to fetch")
      blankState).updatedText = "Error loading data"
    ∧ "TypeError: failed to fetch" ∈
      (loadData (fun ts => ts) (.networkError "TypeError: failed to fetch")
        blankState).log := by
  have h := loadData_catches_errors (fun ts => ts) "TypeError: failed to fetch"
    (.networkError "TypeError: failed to fetch") blankState (Or.inl rfl)
  exact ⟨h.1, h.2.1⟩

/-- C7: on every failure outcome — fetch rejection, parse error, non-OK
status, or an item list that is empty or absent, so the render path never
ran — the grid keeps its prior contents and the status text carries one of
the three failure messages. -/
theorem loadData_failure_frame (lf : String → String) (o : FetchOutcome)
    (s : DomState)
    (h : ∀ data l, o = .response true (.ok data) → data.items = some l → l = []) :
    (loadData lf o s).grid = s.grid
    ∧ ((loadData lf o s).updatedText = "Failed to load data"
      ∨ (loadData lf o s).updatedText = "No items in shop right now"
      ∨ (loadData lf o s).updatedText = "Error loading data") := by
  match o with
  | .networkError err =>
    simp [loadData, catchHandler, showError]
  | .response false body =>
    simp [loadData, showError]
  | .response true (.error err) =>
    simp [loadData, catchHandler, showError]
  | .response true (.ok data) =>
    have hempty : data.items.getD [] = [] := by
      rcases hi : data.items with _ | l
      · rfl
      · simpa using h data l rfl hi
    simp [loadData, hempty, showError]

/-- Witness for C7: a non-OK response over a populated grid leaves the
grid's card untouched. -/
theorem loadData_failure_frame_witness :
    (loadData (fun ts => ts) (.response false (.ok feedAB)) staleState).grid
      = [createCard itemOld] := by
  have h := (loadData_failure_frame (fun ts => ts)
    (.response false (.ok feedAB)) staleState
    (fun _ _ hd _ => by cases hd)).1
  simpa [staleState] using h

/-- C8: on a successful load, a present non-empty `updated_utc` puts
"Updated: " followed by its locale rendering into the status text, and an
absent `updated_utc` blanks the status text. -/
theorem loadData_timestamp (lf : String → String) (data : ShopFeed)
    (l : List ShopItem) (s : DomState)
    (hitems : data.items = some l) (hne : l ≠ []) :
    (∀ ts, data.updated_utc = some ts → ts ≠ "" →
      (loadData lf (.response true (.ok data)) s).updatedText = "Updated: " ++ lf ts)
    ∧ (data.updated_utc = none →
      (loadData lf (.response true (.ok data)) s).updatedText = "") := by
  have hlen : ¬ l.length = 0 := by
    simpa [List.length_eq_zero] using hne
  constructor
  · intro ts hts hne'
    simp only [loadData, Bool.not_true, Bool.false_eq_true, if_false, hitems,
      Option.getD_some]
    rw [if_neg hlen]
    simp [hts, hne']
  · intro hts
    simp only [loadData, Bool.not_true, Bool.false_eq_true, if_false, hitems,
      Option.getD_some]
    rw [if_neg hlen]
    simp [hts]

/-- Witness for C8: both timestamp branches at a concrete one-item feed,
with the identity as the locale formatter. -/
theorem loadData_timestamp_witness :
    (loadData (fun ts => ts) (.response true (.ok feedTs)) blankState).updatedText
      = "Updated: 2024-01-02T03:04:05Z"
    ∧ (loadData (fun ts => ts) (.response true (.ok feedNoTs)) blankState).updatedText
      = "" := by
  constructor
  · have h := loadData_timestamp (fun ts => ts) feedTs [itemA] blankState
      rfl (by decide)
    exact h.1 "2024-01-02T03:04:05Z" rfl (by decide)
  · have h := loadData_timestamp (fun ts => ts) feedNoTs [itemA] blankState
      rfl (by decide)
    exact h.2 rfl

end FNRares
